import Mathlib

/-!
Shallow embedding of ckpooltracker.py (hashrate parser and sampling loop).
Python floats are modelled exactly as rationals; the numeric literals the
claims exercise are exactly representable, so their comparisons agree with
the source. A Python value that may be None or a non-string is modelled as
an Option String (none covers None and any non-string input).
-/

namespace CkPoolTracker

section

attribute [local semireducible] Rat.add Rat.sub Rat.mul Rat.inv Rat.ofScientific

/-- Warnings the parser prints (it never raises to the caller). -/
inductive ParseWarning
  | invalidInput
  | numericParseError
  | noUnitSuffix
  deriving DecidableEq, Repr

/-- The multipliers_to_ths dict of parse_hashrate_to_ths: single-letter metric
prefixes mapped to the factor converting to TH/s. -/
def multipliers_to_ths (c : Char) : Option ℚ :=
  if c = 'H' then some (1 / 10 ^ 12)
  else if c = 'K' then some (1 / 10 ^ 9)
  else if c = 'M' then some (1 / 10 ^ 6)
  else if c = 'G' then some (1 / 10 ^ 3)
  else if c = 'T' then some 1
  else if c = 'P' then some (10 ^ 3)
  else if c = 'E' then some (10 ^ 6)
  else none

/-- Model of Python str.strip(): drop whitespace from both ends. -/
def trimChars (l : List Char) : List Char :=
  ((l.dropWhile Char.isWhitespace).reverse.dropWhile Char.isWhitespace).reverse

/-- Numeric value of a digit run, most significant first. -/
def digitsVal (l : List Char) : ℕ :=
  l.foldl (fun acc c => 10 * acc + (c.toNat - '0'.toNat)) 0

/-- Model of the Python builtin float(s) on finite decimal literals
(optional sign, digits with optional point, optional exponent, surrounding
whitespace); none models the ValueError raise. Core parse, after trimming. -/
def pyFloatCore (l : List Char) : Option ℚ :=
  let (sgn, l₁) : ℚ × List Char :=
    match l with
    | '+' :: rest => (1, rest)
    | '-' :: rest => (-1, rest)
    | _ => (1, l)
  let ip := l₁.takeWhile Char.isDigit
  let l₂ := l₁.dropWhile Char.isDigit
  let (fp, l₃) : List Char × List Char :=
    match l₂ with
    | '.' :: rest => (rest.takeWhile Char.isDigit, rest.dropWhile Char.isDigit)
    | _ => ([], l₂)
  if ip = [] ∧ fp = [] then none
  else
    let mant : ℚ := (digitsVal ip : ℚ) + (digitsVal fp : ℚ) / 10 ^ fp.length
    match l₃ with
    | [] => some (sgn * mant)
    | c :: rest =>
      if c = 'e' ∨ c = 'E' then
        let (epos, rest₁) : Bool × List Char :=
          match rest with
          | '+' :: r => (true, r)
          | '-' :: r => (false, r)
          | _ => (true, rest)
        let ed := rest₁.takeWhile Char.isDigit
        let rest₂ := rest₁.dropWhile Char.isDigit
        if ed = [] ∨ rest₂ ≠ [] then none
        else if epos then some (sgn * mant * 10 ^ digitsVal ed)
        else some (sgn * mant / 10 ^ digitsVal ed)
      else none

/-- Model of float(s): Python strips surrounding whitespace before parsing. -/
def pyFloat (l : List Char) : Option ℚ :=
  pyFloatCore (trimChars l)

/-- Unit-suffix handling of parse_hashrate_to_ths: if the last character of
the stripped string is alphabetic and its uppercase form is a key of
multipliers_to_ths, split it off; otherwise the whole string is the value
part. Returns (unit_char, value_part_str). -/
def splitUnit (cs : List Char) : Option Char × List Char :=
  match cs.getLast? with
  | some c =>
    if c.isAlpha then
      let potential_unit := c.toUpper
      if (multipliers_to_ths potential_unit).isSome then
        (some potential_unit, cs.dropLast)
      else (none, cs)
    else (none, cs)
  | none => (none, cs)

/-- Embedding of parse_hashrate_to_ths. The input none models a Python
non-string (e.g. None); the result pairs the returned float with the warning
printed, if any. -/
def parse_hashrate_to_ths : Option String → ℚ × Option ParseWarning
  | none => (0, some ParseWarning.invalidInput)
  | some s =>
    if s = "" then (0, some ParseWarning.invalidInput)
    else
      let stripped := trimChars s.data
      match pyFloat (splitUnit stripped).2 with
      | none => (0, some ParseWarning.numericParseError)
      | some numeric_val =>
        match (splitUnit stripped).1 with
        | some unit_char =>
          (numeric_val * (multipliers_to_ths unit_char).getD 0, none)
        | none =>
          (numeric_val * (multipliers_to_ths 'H').getD 0,
           some ParseWarning.noUnitSuffix)

/-- One observation: a row of the df DataFrame. A hashrate column holds none
where the source stored np.nan (field absent in that response). -/
structure Sample where
  timestamp : ℚ
  hashrate5m_THs : Option ℚ
  hashrate1h_THs : Option ℚ
  deriving DecidableEq, Repr

/-- FETCH_INTERVAL_SECONDS = 60. -/
def FETCH_INTERVAL_SECONDS : ℚ := 60

/-- DATA_WINDOW_MINUTES = 100. -/
def DATA_WINDOW_MINUTES : ℚ := 100

/-- Mutable state of main's while loop: the df DataFrame, the
next_data_fetch_time monotonic deadline, and latest_workers_count. -/
structure LoopState where
  df : List Sample
  next_data_fetch_time : ℚ
  latest_workers_count : Option Int
  deriving DecidableEq, Repr

/-- Outcome of the one HTTP fetch of a cycle, naming each except-branch of
the try block: requests.exceptions.Timeout, any other
requests.exceptions.RequestException, json.JSONDecodeError, and the
catch-all except Exception. On success, ok carries the optional hashrate5m,
hashrate1hr and workers fields of the decoded JSON object. -/
inductive FetchResult
  | timeout
  | transportError
  | jsonError
  | otherError
  | ok (hashrate5m : Option String) (hashrate1hr : Option String)
      (workers : Option Int)
  deriving DecidableEq, Repr

/-- True exactly on the ok constructor. -/
def FetchResult.isOk : FetchResult → Bool
  | .ok _ _ _ => true
  | _ => false

/-- Environment readings of one fetch cycle: the pd.Timestamp.now() wall
clock taken at line 102, the three time.monotonic() readings (line 101
actual_processing_start_time, line 222 used for processing_duration, line
227 used when rescheduling immediately), and the fetch outcome. -/
structure CycleInput where
  wall_now : ℚ
  mono_start : ℚ
  mono_duration_end : ℚ
  mono_reschedule : ℚ
  result : FetchResult
  deriving DecidableEq, Repr

/-- What the cycle pushes to the plot title: nothing on a failed cycle is
modelled by runCycle returning none; within a successful cycle the title is
the Waiting-for-data state, the Current line, or the Last-in-window line,
each carrying the hashrates and worker count it displays. -/
inductive Display
  | waiting
  | current (shown5m shown1h : Option ℚ) (workersShown : Option Int)
  | lastInWindow (shown5m shown1h : Option ℚ) (workersShown : Option Int)
  deriving DecidableEq, Repr

/-- Result of the try/except part of a cycle (lines 104-219): the df after
append and prune, the updated latest_workers_count, the display update (none
when an exception skipped it), and the new_data_processed_this_cycle flag. -/
structure CycleOutcome where
  df : List Sample
  latest_workers_count : Option Int
  disp : Option Display
  new_data_processed_this_cycle : Bool
  deriving DecidableEq, Repr

/-- The try/except block of one fetch cycle. On any exception the state is
untouched: the raise happens at requests.get / raise_for_status /
response.json(), before the append at line 154 and before the prune at line
159, so neither runs. On ok, mirror lines 110-204. -/
def cycleBody (st : LoopState) (inp : CycleInput) : CycleOutcome :=
  match inp.result with
  | .ok h5 h1 w =>
    let current_hashrate5m_val_ths : Option ℚ :=
      h5.map (fun r => (parse_hashrate_to_ths (some r)).1)
    let current_hashrate1h_val_ths : Option ℚ :=
      h1.map (fun r => (parse_hashrate_to_ths (some r)).1)
    let latest : Option Int :=
      match w with
      | some wv => some wv
      | none => st.latest_workers_count
    let new_data := h5.isSome || h1.isSome
    let df1 :=
      if new_data then
        st.df ++ [⟨inp.wall_now, current_hashrate5m_val_ths,
                   current_hashrate1h_val_ths⟩]
      else st.df
    let cutoff_time := inp.wall_now - DATA_WINDOW_MINUTES * 60
    let df2 := df1.filter (fun s => decide (cutoff_time ≤ s.timestamp))
    let disp : Display :=
      if df2.isEmpty then Display.waiting
      else if new_data then
        Display.current current_hashrate5m_val_ths
          current_hashrate1h_val_ths w
      else
        Display.lastInWindow
          (df2.getLast?.bind Sample.hashrate5m_THs)
          (df2.getLast?.bind Sample.hashrate1h_THs) latest
    ⟨df2, latest, some disp, new_data⟩
  | _ => ⟨st.df, st.latest_workers_count, none, false⟩

/-- One due fetch cycle (lines 99-230): run the try/except body, then the
scheduling tail shared by every branch: if new data was processed and
processing_duration exceeded FETCH_INTERVAL_SECONDS, the next fetch is
scheduled at the fresh monotonic now, else at
scheduled_fetch_start_time + FETCH_INTERVAL_SECONDS. -/
def runCycle (st : LoopState) (inp : CycleInput) : LoopState × Option Display :=
  let scheduled_fetch_start_time := st.next_data_fetch_time
  let body := cycleBody st inp
  let processing_duration := inp.mono_duration_end - inp.mono_start
  let next :=
    if body.new_data_processed_this_cycle = true ∧
        processing_duration > FETCH_INTERVAL_SECONDS then
      inp.mono_reschedule
    else scheduled_fetch_start_time + FETCH_INTERVAL_SECONDS
  (⟨body.df, next, body.latest_workers_count⟩, body.disp)

/-- The state main builds before entering the loop: empty df,
next_data_fetch_time = the time.monotonic() reading of line 91,
latest_workers_count = None. -/
def initState (t0 : ℚ) : LoopState :=
  ⟨[], t0, none⟩

/-- The line 99 guard: a fetch cycle runs when current_time has reached
next_data_fetch_time. -/
def fetchDue (st : LoopState) (current_time : ℚ) : Prop :=
  st.next_data_fetch_time ≤ current_time

/-- Fold of runCycle over a list of cycle inputs. -/
def runCycles (st : LoopState) (inps : List CycleInput) : LoopState :=
  inps.foldl (fun s i => (runCycle s i).1) st

/-- True when the cycle appends a Sample: an ok fetch with at least one of
the two hashrate fields present. -/
def producedSample (inp : CycleInput) : Bool :=
  match inp.result with
  | .ok h5 h1 _ => h5.isSome || h1.isSome
  | _ => false

/-- Timestamp order between two Samples. -/
def tsLe (a b : Sample) : Prop :=
  a.timestamp ≤ b.timestamp

theorem isOk_iff (r : FetchResult) :
    r.isOk = true ↔ ∃ h5 h1 w, r = FetchResult.ok h5 h1 w := by
  cases r <;> simp [FetchResult.isOk]

theorem cycleBody_new_data (st : LoopState) (inp : CycleInput) :
    (cycleBody st inp).new_data_processed_this_cycle = producedSample inp := by
  rcases inp with ⟨wall, ms, md, mr, r⟩
  cases r <;> rfl

theorem runCycle_next (st : LoopState) (inp : CycleInput) :
    (runCycle st inp).1.next_data_fetch_time =
      if producedSample inp = true ∧
          inp.mono_duration_end - inp.mono_start > FETCH_INTERVAL_SECONDS then
        inp.mono_reschedule
      else st.next_data_fetch_time + FETCH_INTERVAL_SECONDS := by
  simp only [runCycle, cycleBody_new_data]

theorem runCycle_ok_df (st : LoopState) (wall ms md mr : ℚ)
    (h5 h1 : Option String) (w : Option Int) :
    (runCycle st ⟨wall, ms, md, mr, FetchResult.ok h5 h1 w⟩).1.df =
      (if (h5.isSome || h1.isSome) = true then
         st.df ++ [⟨wall, h5.map (fun r => (parse_hashrate_to_ths (some r)).1),
                    h1.map (fun r => (parse_hashrate_to_ths (some r)).1)⟩]
       else st.df).filter
        (fun s => decide (wall - DATA_WINDOW_MINUTES * 60 ≤ s.timestamp)) := rfl

theorem runCycle_fail_state (st : LoopState) (inp : CycleInput)
    (hfail : inp.result.isOk = false) :
    (runCycle st inp).1.df = st.df ∧
    (runCycle st inp).1.latest_workers_count = st.latest_workers_count ∧
    (runCycle st inp).2 = none := by
  rcases inp with ⟨wall, ms, md, mr, r⟩
  cases r <;> simp_all [runCycle, cycleBody, FetchResult.isOk]

theorem runCycles_cons (st : LoopState) (i : CycleInput) (inps : List CycleInput) :
    runCycles st (i :: inps) = runCycles (runCycle st i).1 inps := rfl

theorem runCycles_append (st : LoopState) (l₁ l₂ : List CycleInput) :
    runCycles st (l₁ ++ l₂) = runCycles (runCycles st l₁) l₂ := by
  simp [runCycles, List.foldl_append]

theorem mem_runCycle_ok {st : LoopState} {wall ms md mr : ℚ}
    {h5 h1 : Option String} {w : Option Int} {s : Sample}
    (hs : s ∈ (runCycle st ⟨wall, ms, md, mr, FetchResult.ok h5 h1 w⟩).1.df) :
    s ∈ st.df ∨ s.timestamp = wall := by
  rw [runCycle_ok_df] at hs
  have hmem := (List.mem_filter.1 hs).1
  by_cases hnd : (h5.isSome || h1.isSome) = true
  · rw [if_pos hnd] at hmem
    rcases List.mem_append.1 hmem with h | h
    · exact Or.inl h
    · right
      rw [List.mem_singleton] at h
      rw [h]
  · rw [if_neg hnd] at hmem
    exact Or.inl hmem

theorem runCycle_ok_cutoff {st : LoopState} {wall ms md mr : ℚ}
    {h5 h1 : Option String} {w : Option Int} :
    ∀ s ∈ (runCycle st ⟨wall, ms, md, mr, FetchResult.ok h5 h1 w⟩).1.df,
      wall - DATA_WINDOW_MINUTES * 60 ≤ s.timestamp := by
  intro s hs
  rw [runCycle_ok_df] at hs
  have := (List.mem_filter.1 hs).2
  rwa [decide_eq_true_eq] at this

theorem runCycle_ok_sorted {st : LoopState} {wall ms md mr : ℚ}
    {h5 h1 : Option String} {w : Option Int}
    (hsorted : List.Pairwise tsLe st.df)
    (hbound : ∀ s ∈ st.df, s.timestamp ≤ wall) :
    List.Pairwise tsLe
      (runCycle st ⟨wall, ms, md, mr, FetchResult.ok h5 h1 w⟩).1.df := by
  rw [runCycle_ok_df]
  apply List.Pairwise.filter
  by_cases hnd : (h5.isSome || h1.isSome) = true
  · rw [if_pos hnd, List.pairwise_append]
    refine ⟨hsorted, by simp, ?_⟩
    intro a ha b hb
    rw [List.mem_singleton] at hb
    subst hb
    exact hbound a ha
  · rw [if_neg hnd]
    exact hsorted

theorem runCycles_ok_sorted (inps : List CycleInput) :
    ∀ st : LoopState,
      (∀ i ∈ inps, i.result.isOk = true) →
      List.Pairwise (· < ·) (inps.map CycleInput.wall_now) →
      List.Pairwise tsLe st.df →
      (∀ s ∈ st.df, ∀ i ∈ inps, s.timestamp ≤ i.wall_now) →
      List.Pairwise tsLe (runCycles st inps).df := by
  induction inps with
  | nil =>
    intro st _ _ hsorted _
    exact hsorted
  | cons i rest ih =>
    intro st hok hmono hsorted hbound
    rw [runCycles_cons]
    obtain ⟨wall, ms, md, mr, r⟩ := i
    obtain ⟨h5, h1, w, hres⟩ := (isOk_iff r).1 (hok _ (List.mem_cons_self _ _))
    subst hres
    apply ih
    · intro j hj
      exact hok j (List.mem_cons_of_mem _ hj)
    · exact (List.pairwise_cons.1 hmono).2
    · exact runCycle_ok_sorted hsorted
        (fun s hs => hbound s hs _ (List.mem_cons_self _ _))
    · intro s hs j hj
      rcases mem_runCycle_ok hs with h | h
      · exact hbound s h j (List.mem_cons_of_mem _ hj)
      · rw [h]
        exact le_of_lt ((List.pairwise_cons.1 hmono).1 j.wall_now
          (List.mem_map_of_mem CycleInput.wall_now hj))

/-- Claim C1: parse_hashrate_to_ths maps the reference inputs to exactly the
specified TH/s values (7.94T to 7.94, 500G to 0.5, 1P to 1000, and the
suffixless 1000 to 1e-9 with a no-unit warning), and its multiplier table is
exactly H 1e-12, K 1e-9, M 1e-6, G 1e-3, T 1, P 1e3, E 1e6. Floats are
modelled exactly as rationals. -/
theorem C1_parse_reference_values :
    parse_hashrate_to_ths (some "7.94T") = (7.94, none) ∧
    parse_hashrate_to_ths (some "500G") = (0.5, none) ∧
    parse_hashrate_to_ths (some "1P") = (1000, none) ∧
    parse_hashrate_to_ths (some "1000")
      = (1 / 10 ^ 9, some ParseWarning.noUnitSuffix) ∧
    multipliers_to_ths 'H' = some (1 / 10 ^ 12) ∧
    multipliers_to_ths 'K' = some (1 / 10 ^ 9) ∧
    multipliers_to_ths 'M' = some (1 / 10 ^ 6) ∧
    multipliers_to_ths 'G' = some (1 / 10 ^ 3) ∧
    multipliers_to_ths 'T' = some 1 ∧
    multipliers_to_ths 'P' = some (10 ^ 3) ∧
    multipliers_to_ths 'E' = some (10 ^ 6) := by
  decide

/-- Claim C6: the parser is total and never raises: it returns 0.0 with a
warning for a non-string input (modelled none), for the empty string, and
for any input whose numeric part fails to parse; in particular 12X is not
stripped of its unrecognized trailing X, so the numeric parse of the whole
string 12X fails and the result is 0.0 with a warning. -/
theorem C6_parser_never_fails :
    parse_hashrate_to_ths none = (0, some ParseWarning.invalidInput) ∧
    parse_hashrate_to_ths (some "") = (0, some ParseWarning.invalidInput) ∧
    parse_hashrate_to_ths (some "12X")
      = (0, some ParseWarning.numericParseError) ∧
    splitUnit (trimChars "12X".data) = (none, ['1', '2', 'X']) ∧
    pyFloat ['1', '2', 'X'] = none ∧
    ∀ s : String, s ≠ "" →
      pyFloat (splitUnit (trimChars s.data)).2 = none →
      parse_hashrate_to_ths (some s) = (0, some ParseWarning.numericParseError) := by
  refine ⟨by decide, by decide, by decide, by decide, by decide, ?_⟩
  intro s hs hfail
  simp [parse_hashrate_to_ths, hs, hfail]

/-- Witness for C6 at the concrete input abc, whose numeric part abc fails
to parse. -/
theorem C6_witness :
    parse_hashrate_to_ths (some "abc") = (0, some ParseWarning.numericParseError) :=
  C6_parser_never_fails.2.2.2.2.2 "abc" (by decide) (by decide)

/-- Claim C4: next_data_fetch_time starts at the current monotonic time, so
the very first check of the loop guard finds the fetch due; and at the end
of a cycle, when a Sample was produced and processing_duration exceeded the
fetch interval the next fetch is scheduled at the fresh monotonic now,
otherwise at scheduled_fetch_start_time + FETCH_INTERVAL_SECONDS, anchored
to the schedule rather than to completion time. -/
theorem C4_drift_free_scheduling (t0 : ℚ) (st : LoopState) (inp : CycleInput) :
    (initState t0).next_data_fetch_time = t0 ∧
    fetchDue (initState t0) t0 ∧
    (producedSample inp = true ∧
        inp.mono_duration_end - inp.mono_start > FETCH_INTERVAL_SECONDS →
      (runCycle st inp).1.next_data_fetch_time = inp.mono_reschedule) ∧
    (¬(producedSample inp = true ∧
        inp.mono_duration_end - inp.mono_start > FETCH_INTERVAL_SECONDS) →
      (runCycle st inp).1.next_data_fetch_time
        = st.next_data_fetch_time + FETCH_INTERVAL_SECONDS) := by
  refine ⟨rfl, le_refl t0, ?_, ?_⟩ <;> intro h <;> rw [runCycle_next]
  · rw [if_pos h]
  · rw [if_neg h]

/-- Witness for C4: a concrete overrunning cycle that produced a Sample is
rescheduled to the fresh monotonic reading 100. -/
theorem C4_witness :
    (runCycle (initState 0)
        ⟨5, 0, 70, 100, FetchResult.ok (some "1T") none none⟩).1.next_data_fetch_time
      = 100 :=
  (C4_drift_free_scheduling 0 (initState 0)
      ⟨5, 0, 70, 100, FetchResult.ok (some "1T") none none⟩).2.2.1
    (by constructor
        · decide
        · show (70:ℚ) - 0 > FETCH_INTERVAL_SECONDS
          norm_num [FETCH_INTERVAL_SECONDS])

/-- Claim C7 counterexample: a cycle that times out after 100 seconds of
processing (well over the 60 second interval) produced no Sample, so the
code schedules the next fetch at scheduled_start + interval = 60, not at
the monotonic now = 100; the claim universally promises now for every
overrunning cycle. -/
theorem C7_counterexample :
    (100 : ℚ) - 0 > FETCH_INTERVAL_SECONDS ∧
    (runCycle (initState 0)
        ⟨1000, 0, 100, 100, FetchResult.timeout⟩).1.next_data_fetch_time = 60 ∧
    (60 : ℚ) ≠ 100 := by
  refine ⟨by norm_num [FETCH_INTERVAL_SECONDS], by decide, by norm_num⟩

/-- Claim C7 as amended: for every cycle that produced a Sample and whose
processing exceeded the fetch interval, the next cycle starts at the fresh
monotonic now instead of previous scheduled start + interval; an
overrunning cycle that produced no Sample keeps the anchored schedule. -/
theorem C7_catch_up_on_overrun (st : LoopState) (inp : CycleInput)
    (hprod : producedSample inp = true)
    (hover : inp.mono_duration_end - inp.mono_start > FETCH_INTERVAL_SECONDS) :
    (runCycle st inp).1.next_data_fetch_time = inp.mono_reschedule := by
  rw [runCycle_next, if_pos ⟨hprod, hover⟩]

/-- Witness for C7 as amended, at a concrete overrunning productive cycle. -/
theorem C7_witness :
    (runCycle (initState 3)
        ⟨8, 0, 61, 99, FetchResult.ok none (some "2G") none⟩).1.next_data_fetch_time
      = 99 :=
  C7_catch_up_on_overrun (initState 3)
    ⟨8, 0, 61, 99, FetchResult.ok none (some "2G") none⟩
    (by decide)
    (by show (61:ℚ) - 0 > FETCH_INTERVAL_SECONDS
        norm_num [FETCH_INTERVAL_SECONDS])

/-- Claim C8: no cycle outcome terminates the loop: for every state and
every cycle input, each failure kind included, runCycle yields a successor
state that has a next fetch scheduled (either the catch-up monotonic now or
the anchored scheduled start + interval), so the loop always continues to a
next scheduled cycle; only external termination stops it. -/
theorem C8_no_terminal_state (st : LoopState) (inp : CycleInput) :
    (runCycle st inp).1.next_data_fetch_time = inp.mono_reschedule ∨
    (runCycle st inp).1.next_data_fetch_time
      = st.next_data_fetch_time + FETCH_INTERVAL_SECONDS := by
  rw [runCycle_next]
  by_cases h : producedSample inp = true ∧
      inp.mono_duration_end - inp.mono_start > FETCH_INTERVAL_SECONDS
  · exact Or.inl (if_pos h)
  · exact Or.inr (if_neg h)

/-- Claim C3 counterexample: a state holding one Sample at timestamp 0 and a
timed-out cycle at wall time 7000 (the retention cutoff is 7000 - 6000 =
1000): the code leaves the stale Sample in the store because the raise in
the try block skips the pruning statement, while the claim requires the
store to equal its pruned form, which would be empty. -/
theorem C3_counterexample :
    (runCycle ⟨[⟨0, some 1, none⟩], 0, none⟩
        ⟨7000, 0, 1, 2, FetchResult.timeout⟩).1.df = [⟨0, some 1, none⟩] ∧
    ¬ ((7000 : ℚ) - DATA_WINDOW_MINUTES * 60 ≤ 0) ∧
    ([⟨0, some 1, none⟩] : List Sample).filter
        (fun s => decide ((7000 : ℚ) - DATA_WINDOW_MINUTES * 60 ≤ s.timestamp))
      = [] := by
  refine ⟨by decide, ?_, by decide⟩
  norm_num [DATA_WINDOW_MINUTES]

/-- Claim C3 as amended: on a cycle whose fetch times out, fails in
transport, or returns an undecodable body (or any other in-cycle error), no
Sample is appended and the series store is left fully unchanged; the
pruning and the redisplay are also skipped, because the exception is raised
before both statements. -/
theorem C3_failed_cycle_frame (st : LoopState) (inp : CycleInput)
    (hfail : inp.result.isOk = false) :
    (runCycle st inp).1.df = st.df ∧
    (runCycle st inp).1.latest_workers_count = st.latest_workers_count ∧
    (runCycle st inp).2 = none :=
  runCycle_fail_state st inp hfail

/-- Witness for C3 as amended: a concrete JSON-decode failure leaves the
one-Sample store untouched and emits no display update. -/
theorem C3_witness :
    (runCycle ⟨[⟨10, none, some 2⟩], 4, some 7⟩
        ⟨100, 0, 1, 2, FetchResult.jsonError⟩).1.df = [⟨10, none, some 2⟩] ∧
    (runCycle ⟨[⟨10, none, some 2⟩], 4, some 7⟩
        ⟨100, 0, 1, 2, FetchResult.jsonError⟩).1.latest_workers_count = some 7 ∧
    (runCycle ⟨[⟨10, none, some 2⟩], 4, some 7⟩
        ⟨100, 0, 1, 2, FetchResult.jsonError⟩).2 = none :=
  C3_failed_cycle_frame ⟨[⟨10, none, some 2⟩], 4, some 7⟩
    ⟨100, 0, 1, 2, FetchResult.jsonError⟩ (by decide)

/-- Claim C9: latest_workers_count is written only by a cycle whose response
carries a workers field, keeps its old value on every other cycle (workers
absent, or any failed fetch), is never reset to None once set, and is the
worker count shown in the Last-in-window title when a cycle produced no new
data. -/
theorem C9_latest_workers_persist (st : LoopState) (inp : CycleInput) :
    (∀ h5 h1 w, inp.result = FetchResult.ok h5 h1 (some w) →
      (runCycle st inp).1.latest_workers_count = some w) ∧
    (∀ h5 h1, inp.result = FetchResult.ok h5 h1 none →
      (runCycle st inp).1.latest_workers_count = st.latest_workers_count) ∧
    (inp.result.isOk = false →
      (runCycle st inp).1.latest_workers_count = st.latest_workers_count) ∧
    (∀ w0, st.latest_workers_count = some w0 →
      (runCycle st inp).1.latest_workers_count ≠ none) ∧
    (∀ h5 h1 w, inp.result = FetchResult.ok h5 h1 w →
      producedSample inp = false →
      (runCycle st inp).1.df ≠ [] →
      (runCycle st inp).2 = some (Display.lastInWindow
        ((runCycle st inp).1.df.getLast?.bind Sample.hashrate5m_THs)
        ((runCycle st inp).1.df.getLast?.bind Sample.hashrate1h_THs)
        ((runCycle st inp).1.latest_workers_count))) := by
  rcases inp with ⟨wall, ms, md, mr, r⟩
  refine ⟨?_, ?_, ?_, ?_, ?_⟩
  · intro h5 h1 w h
    cases h
    simp [runCycle, cycleBody]
  · intro h5 h1 h
    cases h
    simp [runCycle, cycleBody]
  · intro h
    cases r <;> simp_all [runCycle, cycleBody, FetchResult.isOk]
  · intro w0 h
    cases r <;> simp_all [runCycle, cycleBody]
    case ok h5 h1 w => cases w <;> simp
  · intro h5 h1 w h hnoprod hne
    cases h
    simp only [producedSample] at hnoprod
    simp_all [runCycle, cycleBody]

/-- Witness for C9: a concrete successful cycle whose response has no
hashrate fields and no workers field, against a store still holding a fresh
Sample: the title is the Last-in-window line showing the persisted worker
count 3. -/
theorem C9_witness :
    (runCycle ⟨[⟨95, some 2, none⟩], 0, some 3⟩
        ⟨100, 0, 1, 2, FetchResult.ok none none none⟩).2
      = some (Display.lastInWindow (some 2) none (some 3)) := by
  have h := (C9_latest_workers_persist ⟨[⟨95, some 2, none⟩], 0, some 3⟩
      ⟨100, 0, 1, 2, FetchResult.ok none none none⟩).2.2.2.2
      none none none rfl (by decide) (by decide)
  rw [h]
  decide

/-- Claim C10: within one successful cycle a single wall-clock timestamp is
both the timestamp of the Sample appended this cycle (whose hashrate fields
are parse_hashrate_to_ths of the corresponding response strings when
present and absent when missing) and the reference instant of the pruning
cutoff; every retained Sample either predates the cycle or carries exactly
that timestamp. -/
theorem C10_single_timestamp_per_cycle (st : LoopState) (inp : CycleInput)
    (h5 h1 : Option String) (w : Option Int)
    (hres : inp.result = FetchResult.ok h5 h1 w) :
    ((h5.isSome || h1.isSome) = true →
      (runCycle st inp).1.df.getLast? = some
        ⟨inp.wall_now,
         h5.map (fun r => (parse_hashrate_to_ths (some r)).1),
         h1.map (fun r => (parse_hashrate_to_ths (some r)).1)⟩) ∧
    (∀ s ∈ (runCycle st inp).1.df,
      inp.wall_now - DATA_WINDOW_MINUTES * 60 ≤ s.timestamp) ∧
    (∀ s ∈ (runCycle st inp).1.df, s ∈ st.df ∨ s.timestamp = inp.wall_now) := by
  rcases inp with ⟨wall, ms, md, mr, r⟩
  cases hres
  have hpos : (0 : ℚ) ≤ DATA_WINDOW_MINUTES := by
    norm_num [DATA_WINDOW_MINUTES]
  have hx : decide (wall - DATA_WINDOW_MINUTES * 60 ≤ wall) = true := by
    rw [decide_eq_true_eq]
    norm_num [DATA_WINDOW_MINUTES]
  refine ⟨?_, ?_, ?_⟩
  · intro hnd
    rw [runCycle_ok_df, if_pos hnd, List.filter_append]
    rw [List.getLast?_append_of_ne_nil _ (by simp [List.filter_cons, hx, hpos])]
    simp [List.filter_cons, hx, hpos]
  · intro s hs
    rw [runCycle_ok_df] at hs
    have := (List.mem_filter.1 hs).2
    rwa [decide_eq_true_eq] at this
  · intro s hs
    rw [runCycle_ok_df] at hs
    have hmem := (List.mem_filter.1 hs).1
    by_cases hnd : (h5.isSome || h1.isSome) = true
    · rw [if_pos hnd] at hmem
      rcases List.mem_append.1 hmem with h | h
      · exact Or.inl h
      · right
        rw [List.mem_singleton] at h
        rw [h]
    · rw [if_neg hnd] at hmem
      exact Or.inl hmem

/-- Witness for C10 at a concrete cycle: wall time 50, a present 5m field
and an absent 1h field give a last Sample stamped 50 with the 1h value
absent. -/
theorem C10_witness :
    (runCycle (initState 0)
        ⟨50, 0, 1, 2, FetchResult.ok (some "3T") none none⟩).1.df.getLast?
      = some ⟨50, some 3, none⟩ := by
  have h := (C10_single_timestamp_per_cycle (initState 0)
      ⟨50, 0, 1, 2, FetchResult.ok (some "3T") none none⟩
      (some "3T") none none rfl).1 (by decide)
  rw [h]
  decide

/-- Claim C5 counterexample: a successful cycle whose response carries only
the numeric workers field (workers = 4, both hashrate fields absent):
the worker count is recovered, yet no Sample is appended, refuting the
stated if-and-only-if over all three fields. -/
theorem C5_counterexample :
    (runCycle (initState 0)
        ⟨100, 0, 1, 2, FetchResult.ok none none (some 4)⟩).1.df = [] ∧
    (runCycle (initState 0)
        ⟨100, 0, 1, 2, FetchResult.ok none none (some 4)⟩).1.latest_workers_count
      = some 4 := by
  decide

/-- Claim C5 as amended: in a successful cycle each field is handled
independently and an absent field does not fail the cycle (the display
update still happens); a Sample is constructed and appended if and only if
at least one of the two hashrate fields was recovered — a workers-only
response updates the worker count but appends no Sample. -/
theorem C5_append_iff_hashrate (st : LoopState) (inp : CycleInput)
    (h5 h1 : Option String) (w : Option Int)
    (hres : inp.result = FetchResult.ok h5 h1 w) :
    (runCycle st inp).1.df.length =
      (st.df.filter (fun s =>
        decide (inp.wall_now - DATA_WINDOW_MINUTES * 60 ≤ s.timestamp))).length
        + (if (h5.isSome || h1.isSome) = true then 1 else 0) ∧
    (runCycle st inp).2 ≠ none := by
  rcases inp with ⟨wall, ms, md, mr, r⟩
  cases hres
  have hpos : (0 : ℚ) ≤ DATA_WINDOW_MINUTES := by
    norm_num [DATA_WINDOW_MINUTES]
  have hx : decide (wall - DATA_WINDOW_MINUTES * 60 ≤ wall) = true := by
    rw [decide_eq_true_eq]
    norm_num [DATA_WINDOW_MINUTES]
  constructor
  · rw [runCycle_ok_df]
    by_cases hnd : (h5.isSome || h1.isSome) = true
    · rw [if_pos hnd, if_pos hnd, List.filter_append, List.length_append]
      simp [List.filter_cons, hx, hpos]
    · rw [if_neg hnd, if_neg hnd]
      simp
  · simp [runCycle, cycleBody]

/-- Witness for C5 as amended: a concrete cycle with only the 1h field
present appends exactly one Sample to the empty store. -/
theorem C5_witness :
    (runCycle (initState 0)
        ⟨100, 0, 1, 2, FetchResult.ok none (some "9G") none⟩).1.df.length
      = (([] : List Sample).filter (fun s =>
          decide ((100 : ℚ) - DATA_WINDOW_MINUTES * 60 ≤ s.timestamp))).length
        + (if ((Option.none (α := String)).isSome
              || (Option.some "9G").isSome) = true then 1 else 0) :=
  (C5_append_iff_hashrate (initState 0)
      ⟨100, 0, 1, 2, FetchResult.ok none (some "9G") none⟩
      none (some "9G") none rfl).1

/-- Claim C2: starting from the empty store built by main, for every
sequence of successful fetch cycles with strictly increasing per-cycle wall
timestamps, after every cycle of the sequence (each decomposition
inps = pre ++ i :: post) the store is ordered with timestamps non-decreasing
in insertion order, and every retained Sample satisfies
timestamp at least the wall time of that cycle minus the retention window. -/
theorem C2_store_sorted_and_windowed (t0 : ℚ) (inps : List CycleInput)
    (hok : ∀ i ∈ inps, i.result.isOk = true)
    (hmono : List.Pairwise (· < ·) (inps.map CycleInput.wall_now))
    (pre : List CycleInput) (i : CycleInput) (post : List CycleInput)
    (hsplit : inps = pre ++ i :: post) :
    List.Pairwise tsLe (runCycles (initState t0) (pre ++ [i])).df ∧
    ∀ s ∈ (runCycles (initState t0) (pre ++ [i])).df,
      i.wall_now - DATA_WINDOW_MINUTES * 60 ≤ s.timestamp := by
  have hsub : List.Sublist (pre ++ [i]) inps := by
    rw [hsplit]
    have h := List.sublist_append_left (pre ++ [i]) post
    rwa [List.append_assoc, List.singleton_append] at h
  have hok' : ∀ j ∈ pre ++ [i], j.result.isOk = true :=
    fun j hj => hok j (hsub.mem hj)
  have hmono' : List.Pairwise (· < ·) ((pre ++ [i]).map CycleInput.wall_now) :=
    hmono.sublist (hsub.map CycleInput.wall_now)
  constructor
  · exact runCycles_ok_sorted (pre ++ [i]) (initState t0) hok' hmono'
      (by simp [initState]) (by simp [initState])
  · have hstep : runCycles (initState t0) (pre ++ [i])
        = (runCycle (runCycles (initState t0) pre) i).1 := by
      rw [runCycles_append]
      rfl
    obtain ⟨wall, ms, md, mr, r⟩ := i
    obtain ⟨h5, h1, w, hres⟩ := (isOk_iff r).1
      (hok' _ (List.mem_append_right pre (List.mem_singleton_self _)))
    subst hres
    rw [hstep]
    exact runCycle_ok_cutoff

/-- Witness for C2: one concrete successful cycle at wall time 100 from the
initial empty store. -/
theorem C2_witness :
    List.Pairwise tsLe
      (runCycles (initState 0)
        ([] ++ [⟨100, 0, 1, 2, FetchResult.ok (some "1T") none none⟩])).df ∧
    ∀ s ∈ (runCycles (initState 0)
        ([] ++ [⟨100, 0, 1, 2, FetchResult.ok (some "1T") none none⟩])).df,
      CycleInput.wall_now ⟨100, 0, 1, 2, FetchResult.ok (some "1T") none none⟩
        - DATA_WINDOW_MINUTES * 60 ≤ s.timestamp :=
  C2_store_sorted_and_windowed 0
    [⟨100, 0, 1, 2, FetchResult.ok (some "1T") none none⟩]
    (by decide) (by simp)
    [] ⟨100, 0, 1, 2, FetchResult.ok (some "1T") none none⟩ [] rfl

end

end CkPoolTracker
